import Mathlib

/-!
Shallow embedding of the client-side LDLM request engine
(drivers/staging/lustre/lustre/ldlm/ldlm_request.c) and proofs about its
enqueue-completion, cancel, LRU-eviction and replay paths.

External collaborators (handle store, RPC transport, capsule layer, the
in-lock LVB encoder ldlm_fill_lvb, resource hash) are modelled as explicit
input parameters carrying their observable results; the control flow and
all decisions taken inside ldlm_request.c itself are translated statement
by statement from the source.
-/

namespace LdlmRequest

/- Status and errno constants used by the translated code paths. -/

def ELDLM_OK : Int := 0

def ELDLM_LOCK_ABORTED : Int := 301

def EINVAL : Int := 22

def EPROTO : Int := 71

def ENOLCK : Int := 37

def ENOMEM : Int := 12

def ETIMEDOUT : Int := 110

def LUSTRE_ESTALE : Int := 116

/- Lock flag state relevant to the cancel pipeline and failed-lock cleanup.
   Each field mirrors one LDLM_FL_* bit of the lock. -/

structure LockFlags where
  cbpending : Bool := false
  canceling : Bool := false
  bl_ast : Bool := false
  local_only : Bool := false
  cancel_on_block : Bool := false
  failed : Bool := false
  atomic_cb : Bool := false
  destroyed : Bool := false
deriving DecidableEq, Repr

/- Client view of a lock as consumed by failed_lock_cleanup and
   ldlm_cli_cancel_local: connection binding, modes, flag word. -/

structure CliLock where
  conn_export : Bool
  req_mode : Nat
  granted_mode : Nat
  flags : LockFlags
deriving DecidableEq, Repr

inductive CleanupAction
  | destroyFlock
  | decref
deriving DecidableEq, Repr

/- failed_lock_cleanup (ldlm_request.c:321): under the double lock, when the
   lock is neither granted nor already failed, stamp
   LOCAL_ONLY | FAILED | ATOMIC_CB | CBPENDING so a racing blocking AST is
   answered with an error and no CANCEL RPC is sent.  FLOCK locks are then
   unlinked and destroyed, others only decref the mode. -/

def failed_lock_cleanup (l : CliLock) (isFlock : Bool) : CliLock × CleanupAction :=
  let l1 :=
    if l.req_mode ≠ l.granted_mode ∧ l.flags.failed = false then
      { l with flags :=
        { l.flags with local_only := true, failed := true,
                       atomic_cb := true, cbpending := true } }
    else l
  if isFlock then
    ({ l1 with flags := { l1.flags with destroyed := true } }, CleanupAction.destroyFlock)
  else (l1, CleanupAction.decref)

inductive CancelLocalRes
  | localOnly
  | canceling
  | blAst
deriving DecidableEq, Repr

/- ldlm_cli_cancel_local (ldlm_request.c:840).  Requires a non-null
   conn_export (the source LBUGs otherwise, modelled by none).  Under the
   double lock it sets CBPENDING, snapshots the LOCAL_ONLY/CANCEL_ON_BLOCK
   hint, computes BL_AST vs CANCELING from the BL_AST flag, and finally the
   local-only snapshot overrides the result with LOCAL_ONLY. -/

def ldlm_cli_cancel_local (l : CliLock) : Option (CancelLocalRes × CliLock) :=
  if l.conn_export then
    let l1 := { l with flags := { l.flags with cbpending := true } }
    let lo := l1.flags.local_only || l1.flags.cancel_on_block
    let rc0 := if l1.flags.bl_ast then CancelLocalRes.blAst else CancelLocalRes.canceling
    let rc := if lo then CancelLocalRes.localOnly else rc0
    some (rc, l1)
  else none

/- Observable results of the external collaborators that
   ldlm_cli_enqueue_fini consults, one field per call site. -/

structure FiniEnv where
  lockFound : Bool
  is_replay : Bool
  replyPresent : Bool
  capsuleLvbSize : Int
  fillCallerRc : Int
  fillLockRc : Int
  lockChanged : Bool
  resourceChanged : Bool
  changeResourceOk : Bool
  astSent : Bool
  alreadyGranted : Bool
  hasCompletion : Bool
  enqueueRc : Int
  completionRc : Int
deriving DecidableEq, Repr

/- Outcome of one run of ldlm_cli_enqueue_fini: the status returned to the
   caller, whether failed_lock_cleanup ran, whether the lock was installed
   into the namespace (ldlm_lock_enqueue), and how many LVB bytes were
   copied into the caller buffer. -/

structure FiniOut where
  ret : Int
  cleanupCalled : Bool
  installed : Bool
  callerLvbCopied : Option Int
deriving DecidableEq, Repr

/- ldlm_cli_enqueue_fini (ldlm_request.c:373), translated branch by branch.
   cleanup_phase starts at 1 and is reset to 0 once the lock is known to be
   enqueued on the server; failed_lock_cleanup runs at the cleanup label only
   when cleanup_phase is 1 and rc is non-zero. -/

def ldlm_cli_enqueue_fini (env : FiniEnv) (lvb_len : Int) (lvbBuf : Bool)
    (rc0 : Int) : FiniOut :=
  if env.lockFound = false then
    { ret := -ENOLCK, cleanupCalled := false, installed := false,
      callerLvbCopied := none }
  else if rc0 ≠ ELDLM_OK ∧ rc0 ≠ ELDLM_LOCK_ABORTED then
    { ret := rc0, cleanupCalled := true, installed := false,
      callerLvbCopied := none }
  else if env.replyPresent = false then
    { ret := -EPROTO, cleanupCalled := true, installed := false,
      callerLvbCopied := none }
  else if 0 < lvb_len ∧ env.capsuleLvbSize < 0 then
    { ret := env.capsuleLvbSize, cleanupCalled := true, installed := false,
      callerLvbCopied := none }
  else if 0 < lvb_len ∧ lvb_len < env.capsuleLvbSize then
    { ret := -EINVAL, cleanupCalled := true, installed := false,
      callerLvbCopied := none }
  else
    let lvb_len1 := if 0 < lvb_len then env.capsuleLvbSize else lvb_len
    if rc0 = ELDLM_LOCK_ABORTED then
      if 0 < lvb_len1 ∧ lvbBuf then
        if env.fillCallerRc = 0 then
          { ret := ELDLM_LOCK_ABORTED, cleanupCalled := true,
            installed := false, callerLvbCopied := some lvb_len1 }
        else
          { ret := env.fillCallerRc,
            cleanupCalled := env.fillCallerRc ≠ 0, installed := false,
            callerLvbCopied := none }
      else
        { ret := ELDLM_LOCK_ABORTED, cleanupCalled := true,
          installed := false, callerLvbCopied := none }
    else
      if env.lockChanged ∧ env.resourceChanged ∧ env.changeResourceOk = false then
        { ret := -ENOMEM, cleanupCalled := false, installed := false,
          callerLvbCopied := none }
      else if 0 < lvb_len1 ∧ env.alreadyGranted = false ∧ env.fillLockRc < 0 then
        { ret := env.fillLockRc, cleanupCalled := true, installed := false,
          callerLvbCopied := none }
      else if env.is_replay = false then
        let rcE := env.enqueueRc
        let rcC := if env.hasCompletion then
                     (if rcE = 0 then env.completionRc else rcE)
                   else rcE
        { ret := rcC, cleanupCalled := env.hasCompletion ∧ rcC ≠ 0,
          installed := true,
          callerLvbCopied := if 0 < lvb_len1 ∧ lvbBuf then some lvb_len1 else none }
      else
        let rcR := if 0 < lvb_len1 ∧ env.alreadyGranted = false then env.fillLockRc else 0
        { ret := rcR, cleanupCalled := false, installed := false,
          callerLvbCopied := if 0 < lvb_len1 ∧ lvbBuf then some lvb_len1 else none }

/- ldlm_req_handles_avail (ldlm_request.c:570): estimate the number of lock
   handles fitting into a request of the given size; the constants
   LDLM_MAXREQSIZE, PAGE_SIZE, sizeof(struct lustre_handle) and
   LDLM_LOCKREQ_HANDLES live outside this file and are passed in. -/

def ldlm_req_handles_avail (maxreqsize pagesize handleSize lockreqHandles : Int)
    (req_size off : Int) : Int :=
  let avail := min maxreqsize (pagesize - 512) - req_size
  let avail := if 0 ≤ avail then avail / handleSize else 0
  avail + (lockreqHandles - off)

/- ldlm_request_bufsize (ldlm_request.c:99): an LDLM_ENQUEUE request already
   reserves LDLM_ENQUEUE_CANCEL_OFF of the LDLM_LOCKREQ_HANDLES slots. -/

def ldlm_request_bufsize (lockreqHandles enqCancelOff handleSize reqStructSize : Int)
    (count : Int) (isEnqueue : Bool) : Int :=
  let avail := if isEnqueue then lockreqHandles - enqCancelOff else lockreqHandles
  let extra := if avail < count then (count - avail) * handleSize else 0
  reqStructSize + extra

/- Outcome of ldlm_prep_elc_req: the value the descriptor buffer is sized
   for, the number of handles packed into the enqueue request, and the
   number handed to a separate cancel batch. -/

structure ElcOut where
  bufSizedFor : Option Int
  packedInReq : Int
  sentSeparately : Int
deriving DecidableEq, Repr

/- Total number of cancel candidates assembled by ldlm_prep_elc_req: the
   given ones plus, when room remains, the locks greedily harvested from
   the LRU by ldlm_cancel_lru_local with max set to avail - count. -/

def elcCandidates (avail count0 : Int) (lruTake : Int → Int) : Int :=
  if count0 < avail then count0 + lruTake (avail - count0) else count0

/- ldlm_prep_elc_req (ldlm_request.c:610).  avail is the capsule estimate
   already reduced by canceloff; lruTake models ldlm_cancel_lru_local, the
   greedy LRU harvest called with max set to avail - count. -/

def ldlm_prep_elc_req (cancelset packFails : Bool) (avail count0 : Int)
    (lruTake : Int → Int) : ElcOut :=
  if cancelset then
    let count := elcCandidates avail count0 lruTake
    let pack := if count < avail then count else avail
    if packFails then
      { bufSizedFor := some pack, packedInReq := 0, sentSeparately := 0 }
    else
      { bufSizedFor := some pack, packedInReq := pack,
        sentSeparately := count - pack }
  else
    { bufSizedFor := none, packedInReq := 0, sentSeparately := 0 }

/- LRU eviction: lock state seen by ldlm_prepare_lru_list.  The two race
   fields record what the recheck under the double lock will observe for
   this lock: whether some other thread started CANCEL in the meantime and
   whether ldlm_lock_remove_from_lru_check still matches last_used. -/

structure LruLock where
  skipped : Bool
  canceling : Bool
  last_used : Nat
  cancelingAtRecheck : Bool
  removeCheckOk : Bool
deriving DecidableEq, Repr

inductive PolicyRes
  | keep
  | cancel
  | skip
deriving DecidableEq, Repr

/- Inner scan of ldlm_prepare_lru_list (ldlm_request.c:1420): walk the
   unused list, leaving SKIPPED (under no-wait) and too-fresh locks in
   place, dropping locks already marked CANCELING from the LRU, and stop at
   the first remaining candidate. -/

def lruScan (now : Nat) (noWait : Bool) :
    List LruLock → Option (List LruLock × LruLock × List LruLock)
  | [] => none
  | l :: rest =>
    if noWait ∧ l.skipped then
      match lruScan now noWait rest with
      | none => none
      | some (pre, c, post) => some (l :: pre, c, post)
    else if l.last_used = now then
      match lruScan now noWait rest with
      | none => none
      | some (pre, c, post) => some (l :: pre, c, post)
    else if l.canceling = false then some ([], l, rest)
    else lruScan now noWait rest

/- Outer loop of ldlm_prepare_lru_list (ldlm_request.c:1408).  fuel models
   the remained counter (initially ns_nr_unused); each iteration checks the
   max bound, rescans the list, queries the policy, and on CANCEL rechecks
   the lock under the double lock before moving it to the batch. -/

def prepLoop (now : Nat) (noWait : Bool)
    (pf : LruLock → Nat → Nat → Int → PolicyRes)
    (count maxL : Int) :
    Nat → List LruLock → Nat → Nat → Nat
  | 0, _, added, _ => added
  | fuel + 1, lru, added, unused =>
    if 0 < maxL ∧ maxL ≤ (added : Int) then added
    else
      match lruScan now noWait lru with
      | none => added
      | some (pre, l, post) =>
        match pf l unused added count with
        | PolicyRes.keep => added
        | PolicyRes.skip =>
          prepLoop now noWait pf count maxL fuel
            (pre ++ ({ l with skipped := true } :: post)) added unused
        | PolicyRes.cancel =>
          if l.cancelingAtRecheck then
            prepLoop now noWait pf count maxL fuel
              (pre ++ ({ l with canceling := true } :: post)) added unused
          else if l.removeCheckOk = false then
            prepLoop now noWait pf count maxL fuel
              (pre ++ ({ l with last_used := now } :: post)) added unused
          else
            prepLoop now noWait pf count maxL fuel (pre ++ post)
              (added + 1) (unused - 1)

/- ldlm_prepare_lru_list (ldlm_request.c:1388): when LRU resize is off the
   target is raised by nr_unused - ns_max_unused to hard-cap the cache,
   then the scan loop runs with remained = nr_unused. -/

def ldlm_prepare_lru_list (now : Nat) (noWait lruResize : Bool)
    (pf : LruLock → Nat → Nat → Int → PolicyRes)
    (lru : List LruLock) (count0 maxL maxUnused : Int) : Nat :=
  let unused := lru.length
  let count := if lruResize = false then count0 + ((unused : Int) - maxUnused)
               else count0
  prepLoop now noWait pf count maxL unused lru 0 unused

/- Replay: client view of one lock as consumed by replay_one_lock. -/

structure ReplayLockView where
  bl_done : Bool
  cancel_on_block : Bool
  granted_mode : Nat
  req_mode : Nat
  onResList : Bool
deriving DecidableEq, Repr

/- Wire flags placed on a replay enqueue. -/

structure ReplayFlags where
  replay : Bool
  block_granted : Bool
  block_conv : Bool
  block_wait : Bool
deriving DecidableEq, Repr

inductive ReplayAction
  | skipped
  | cancelledLocally
  | allocFailed
  | sent (flags : ReplayFlags)
deriving DecidableEq, Repr

/- replay_one_lock (ldlm_request.c:1949): BL_DONE locks are skipped with no
   RPC; CANCEL_ON_BLOCK locks are cancelled locally with no RPC; otherwise
   the replay flags are derived from granted_mode, req_mode and resource
   list membership, and the enqueue is sent asynchronously. -/

def replay_one_lock (allocOk : Bool) (l : ReplayLockView) : ReplayAction :=
  if l.bl_done then ReplayAction.skipped
  else if l.cancel_on_block then ReplayAction.cancelledLocally
  else
    let flags :=
      if l.granted_mode = l.req_mode then
        { replay := true, block_granted := true, block_conv := false,
          block_wait := false : ReplayFlags }
      else if l.granted_mode ≠ 0 then
        { replay := true, block_granted := false, block_conv := true,
          block_wait := false : ReplayFlags }
      else if l.onResList then
        { replay := true, block_granted := false, block_conv := false,
          block_wait := true : ReplayFlags }
      else
        { replay := true, block_granted := false, block_conv := false,
          block_wait := false : ReplayFlags }
    if allocOk then ReplayAction.sent flags else ReplayAction.allocFailed

/- The replay-flag table exactly as the specification words it, to be
   compared with the translation of the source above. -/

def replayFlagsSpec (l : ReplayLockView) : ReplayFlags :=
  if l.granted_mode = l.req_mode then
    { replay := true, block_granted := true, block_conv := false,
      block_wait := false }
  else if l.granted_mode ≠ 0 then
    { replay := true, block_granted := false, block_conv := true,
      block_wait := false }
  else if l.onResList then
    { replay := true, block_granted := false, block_conv := false,
      block_wait := true }
  else
    { replay := true, block_granted := false, block_conv := false,
      block_wait := false }

/- Pool view: the two fields ldlm_cli_update_pool may write, plus an
   abstract remainder standing for every other part of the pool state. -/

structure PoolView where
  slv : Nat
  limit : Nat
  rest : Nat
deriving DecidableEq, Repr

/- ldlm_cli_update_pool (ldlm_request.c:1005): do nothing for a missing or
   non-LRU-resize import, ignore replies carrying a zero SLV or zero limit,
   otherwise stamp both values under the pool write lock. -/

def ldlm_cli_update_pool (importOk lruResize : Bool) (msgSlv msgLimit : Nat)
    (st : PoolView) : PoolView :=
  if importOk = false ∨ lruResize = false then st
  else if msgSlv = 0 ∨ msgLimit = 0 then st
  else { st with slv := msgSlv, limit := msgLimit }

/- One iteration of the ldlm_cli_cancel_req send loop, as observed from the
   external transport: the import may be invalid, allocation or packing may
   fail, or the request is sent and a reply status arrives together with
   whether the connection generation is still unchanged. -/

inductive CancelAttempt
  | invalidImport
  | allocFail
  | packFail (e : Int)
  | sendOk (replyRc : Int) (genUnchanged : Bool)

/- Send loop of ldlm_cli_cancel_req (ldlm_request.c:933): ESTALE is success
   for the whole batch, TIMEOUT with unchanged generation retries the same
   batch, any other non-OK status breaks out with sent = 0 so the status
   itself is returned; none models exhausting the modelled trace while
   still retrying. -/

def cancelReqLoop (count : Int) (async : Bool) :
    List CancelAttempt → Option Int
  | [] => none
  | CancelAttempt.invalidImport :: _ => some count
  | CancelAttempt.allocFail :: _ => some (-ENOMEM)
  | CancelAttempt.packFail e :: _ => some e
  | CancelAttempt.sendOk rc gen :: rest =>
    if async then some count
    else if rc = LUSTRE_ESTALE then some count
    else if rc = -ETIMEDOUT ∧ gen then cancelReqLoop count async rest
    else if rc ≠ ELDLM_OK then some rc
    else some count

/- ldlm_cli_cancel_req (ldlm_request.c:911): the batch is first capped by
   the number of handles that fit into one CANCEL request. -/

def ldlm_cli_cancel_req (count free : Int) (async : Bool)
    (attempts : List CancelAttempt) : Option Int :=
  let count1 := if free < count then free else count
  cancelReqLoop count1 async attempts

/- ldlm_cli_cancel_list error handling (ldlm_request.c:1674): a negative
   status from the batch send is logged and replaced by the batch size, so
   every lock of the batch is still dropped as cancelled on the client. -/

def effectiveCancelled (res count : Int) : Int :=
  if res < 0 then count else res

/- Outcome summary of the public ldlm_cli_cancel entry point. -/

inductive CliCancelOutcome
  | noLock
  | asyncSkip
  | localDone
  | batched
deriving DecidableEq, Repr

/- ldlm_cli_cancel (ldlm_request.c:1057): a dead handle returns 0; an
   already-canceling lock returns 0 immediately only under LCF_ASYNC;
   otherwise CANCELING is set, ldlm_cli_cancel_local runs, and unless it
   answered LOCAL_ONLY or LCF_LOCAL is set the lock joins a batch sent via
   ldlm_cli_cancel_list. -/

def ldlm_cli_cancel (found : Bool) (l : CliLock) (async localFlag : Bool) :
    Option (Int × CliCancelOutcome × CliLock) :=
  if found = false then some (0, CliCancelOutcome.noLock, l)
  else if l.flags.canceling ∧ async then some (0, CliCancelOutcome.asyncSkip, l)
  else
    let l1 := { l with flags := { l.flags with canceling := true } }
    match ldlm_cli_cancel_local l1 with
    | none => none
    | some (rcF, l2) =>
      if rcF = CancelLocalRes.localOnly ∨ localFlag then
        some (0, CliCancelOutcome.localDone, l2)
      else
        some (0, CliCancelOutcome.batched, l2)

/-- C1: for a synchronous enqueue whose reply status is LOCK_ABORTED with a
caller-supplied LVB buffer, ldlm_cli_enqueue_fini copies the LVB of the
length declared by the reply into the caller buffer, returns LOCK_ABORTED,
runs failed_lock_cleanup instead of installing the lock, and the cleanup
stamp makes any later cancel of the lock LOCAL_ONLY, so no cancel RPC is
sent for it. -/
theorem C1_aborted_enqueue_with_lvb (env : FiniEnv) (lvb_len : Int)
    (hFound : env.lockFound = true)
    (hReply : env.replyPresent = true)
    (hLen : 0 < lvb_len)
    (hSzPos : 0 < env.capsuleLvbSize)
    (hSz : env.capsuleLvbSize ≤ lvb_len)
    (hFill : env.fillCallerRc = 0) :
    (ldlm_cli_enqueue_fini env lvb_len true ELDLM_LOCK_ABORTED).ret =
        ELDLM_LOCK_ABORTED ∧
    (ldlm_cli_enqueue_fini env lvb_len true ELDLM_LOCK_ABORTED).callerLvbCopied =
        some env.capsuleLvbSize ∧
    (ldlm_cli_enqueue_fini env lvb_len true ELDLM_LOCK_ABORTED).cleanupCalled =
        true ∧
    (ldlm_cli_enqueue_fini env lvb_len true ELDLM_LOCK_ABORTED).installed =
        false ∧
    (∀ l : CliLock, l.conn_export = true → l.req_mode ≠ l.granted_mode →
      l.flags.failed = false →
      Option.map Prod.fst
          (ldlm_cli_cancel_local ((failed_lock_cleanup l false).1)) =
        some CancelLocalRes.localOnly) := by
  have h1 : ¬ env.capsuleLvbSize < 0 := by omega
  have h2 : ¬ lvb_len < env.capsuleLvbSize := by omega
  have hout : ldlm_cli_enqueue_fini env lvb_len true ELDLM_LOCK_ABORTED =
      { ret := ELDLM_LOCK_ABORTED, cleanupCalled := true, installed := false,
        callerLvbCopied := some env.capsuleLvbSize } := by
    simp [ldlm_cli_enqueue_fini, hFound, hReply, hFill, h1, h2, hLen, hSzPos,
      ELDLM_LOCK_ABORTED, ELDLM_OK]
  refine ⟨by rw [hout], by rw [hout], by rw [hout], by rw [hout], ?_⟩
  intro l hExp hMode hFail
  simp [failed_lock_cleanup, ldlm_cli_cancel_local, hExp, hMode, hFail]

/-- C1 witness: a concrete aborted enqueue carrying a 72-byte LVB. -/
theorem C1_aborted_enqueue_with_lvb_witness :
    (ldlm_cli_enqueue_fini
      { lockFound := true, is_replay := false, replyPresent := true,
        capsuleLvbSize := 72, fillCallerRc := 0, fillLockRc := 0,
        lockChanged := false, resourceChanged := false,
        changeResourceOk := true, astSent := false, alreadyGranted := false,
        hasCompletion := true, enqueueRc := 0, completionRc := 0 }
      72 true ELDLM_LOCK_ABORTED).ret = ELDLM_LOCK_ABORTED ∧
    (ldlm_cli_enqueue_fini
      { lockFound := true, is_replay := false, replyPresent := true,
        capsuleLvbSize := 72, fillCallerRc := 0, fillLockRc := 0,
        lockChanged := false, resourceChanged := false,
        changeResourceOk := true, astSent := false, alreadyGranted := false,
        hasCompletion := true, enqueueRc := 0, completionRc := 0 }
      72 true ELDLM_LOCK_ABORTED).callerLvbCopied = some 72 ∧
    (ldlm_cli_enqueue_fini
      { lockFound := true, is_replay := false, replyPresent := true,
        capsuleLvbSize := 72, fillCallerRc := 0, fillLockRc := 0,
        lockChanged := false, resourceChanged := false,
        changeResourceOk := true, astSent := false, alreadyGranted := false,
        hasCompletion := true, enqueueRc := 0, completionRc := 0 }
      72 true ELDLM_LOCK_ABORTED).cleanupCalled = true ∧
    (ldlm_cli_enqueue_fini
      { lockFound := true, is_replay := false, replyPresent := true,
        capsuleLvbSize := 72, fillCallerRc := 0, fillLockRc := 0,
        lockChanged := false, resourceChanged := false,
        changeResourceOk := true, astSent := false, alreadyGranted := false,
        hasCompletion := true, enqueueRc := 0, completionRc := 0 }
      72 true ELDLM_LOCK_ABORTED).installed = false ∧
    (∀ l : CliLock, l.conn_export = true → l.req_mode ≠ l.granted_mode →
      l.flags.failed = false →
      Option.map Prod.fst
          (ldlm_cli_cancel_local ((failed_lock_cleanup l false).1)) =
        some CancelLocalRes.localOnly) :=
  C1_aborted_enqueue_with_lvb _ 72 rfl rfl (by decide) (by decide) (by decide) rfl

/-- C2 counterexample: an enqueue reply declaring a 16-byte LVB against an
expected 8 bytes fails with -EINVAL (INVAL), not with -EPROTO
(PROTO_ERROR) as the claim states. -/
theorem C2_oversized_lvb_counterexample :
    (ldlm_cli_enqueue_fini
      { lockFound := true, is_replay := false, replyPresent := true,
        capsuleLvbSize := 16, fillCallerRc := 0, fillLockRc := 0,
        lockChanged := false, resourceChanged := false,
        changeResourceOk := true, astSent := false, alreadyGranted := false,
        hasCompletion := true, enqueueRc := 0, completionRc := 0 }
      8 true ELDLM_OK).ret = -EINVAL ∧
    (ldlm_cli_enqueue_fini
      { lockFound := true, is_replay := false, replyPresent := true,
        capsuleLvbSize := 16, fillCallerRc := 0, fillLockRc := 0,
        lockChanged := false, resourceChanged := false,
        changeResourceOk := true, astSent := false, alreadyGranted := false,
        hasCompletion := true, enqueueRc := 0, completionRc := 0 }
      8 true ELDLM_OK).ret ≠ -EPROTO := by
  constructor <;> decide

/-- C2 (amended): when the server-declared LVB size exceeds the expected
lvb_len, ldlm_cli_enqueue_fini fails the operation with the INVAL status
(-EINVAL) and the lock is driven through failed_lock_cleanup without being
installed. -/
theorem C2_oversized_lvb_invalid (env : FiniEnv) (lvb_len rc0 : Int)
    (lvbBuf : Bool)
    (hFound : env.lockFound = true)
    (hReply : env.replyPresent = true)
    (hRc : rc0 = ELDLM_OK ∨ rc0 = ELDLM_LOCK_ABORTED)
    (hLen : 0 < lvb_len)
    (hSz : lvb_len < env.capsuleLvbSize) :
    (ldlm_cli_enqueue_fini env lvb_len lvbBuf rc0).ret = -EINVAL ∧
    (ldlm_cli_enqueue_fini env lvb_len lvbBuf rc0).cleanupCalled = true ∧
    (ldlm_cli_enqueue_fini env lvb_len lvbBuf rc0).installed = false := by
  have h1 : ¬ env.capsuleLvbSize < 0 := by omega
  have hout : ldlm_cli_enqueue_fini env lvb_len lvbBuf rc0 =
      { ret := -EINVAL, cleanupCalled := true, installed := false,
        callerLvbCopied := none } := by
    rcases hRc with h | h <;>
      simp [ldlm_cli_enqueue_fini, hFound, hReply, h, h1, hLen, hSz,
        ELDLM_LOCK_ABORTED, ELDLM_OK]
  exact ⟨by rw [hout], by rw [hout], by rw [hout]⟩

/-- C2 witness: concrete oversized-LVB reply on the LOCK_ABORTED path. -/
theorem C2_oversized_lvb_invalid_witness :
    (ldlm_cli_enqueue_fini
      { lockFound := true, is_replay := false, replyPresent := true,
        capsuleLvbSize := 100, fillCallerRc := 0, fillLockRc := 0,
        lockChanged := false, resourceChanged := false,
        changeResourceOk := true, astSent := false, alreadyGranted := false,
        hasCompletion := true, enqueueRc := 0, completionRc := 0 }
      72 true ELDLM_LOCK_ABORTED).ret = -EINVAL ∧
    (ldlm_cli_enqueue_fini
      { lockFound := true, is_replay := false, replyPresent := true,
        capsuleLvbSize := 100, fillCallerRc := 0, fillLockRc := 0,
        lockChanged := false, resourceChanged := false,
        changeResourceOk := true, astSent := false, alreadyGranted := false,
        hasCompletion := true, enqueueRc := 0, completionRc := 0 }
      72 true ELDLM_LOCK_ABORTED).cleanupCalled = true ∧
    (ldlm_cli_enqueue_fini
      { lockFound := true, is_replay := false, replyPresent := true,
        capsuleLvbSize := 100, fillCallerRc := 0, fillLockRc := 0,
        lockChanged := false, resourceChanged := false,
        changeResourceOk := true, astSent := false, alreadyGranted := false,
        hasCompletion := true, enqueueRc := 0, completionRc := 0 }
      72 true ELDLM_LOCK_ABORTED).installed = false :=
  C2_oversized_lvb_invalid _ 72 ELDLM_LOCK_ABORTED true rfl rfl
    (Or.inr rfl) (by decide) (by decide)

/-- C3 counterexample: for a lock with both BL_AST and LOCAL_ONLY set at
entry, ldlm_cli_cancel_local answers LOCAL_ONLY, not BL_AST as the claim
orders its cases. -/
theorem C3_cancel_local_counterexample :
    Option.map Prod.fst (ldlm_cli_cancel_local
      { conn_export := true, req_mode := 1, granted_mode := 0,
        flags := { bl_ast := true, local_only := true } }) =
      some CancelLocalRes.localOnly ∧
    (CancelLocalRes.localOnly ≠ CancelLocalRes.blAst) := by
  constructor <;> decide

/-- C3 (amended): for a lock with non-null conn_export,
ldlm_cli_cancel_local sets CBPENDING under the double lock and returns
LOCAL_ONLY whenever the LOCAL_ONLY or CANCEL_ON_BLOCK hint was set at
entry (this takes precedence), otherwise BL_AST when the BL_AST flag is
set, and CANCELING otherwise; the precondition conn_export ≠ null is
required. -/
theorem C3_cancel_local_result (l : CliLock) (hExp : l.conn_export = true) :
    ldlm_cli_cancel_local l =
      some
        (if l.flags.local_only || l.flags.cancel_on_block then
           CancelLocalRes.localOnly
         else if l.flags.bl_ast then CancelLocalRes.blAst
         else CancelLocalRes.canceling,
         { l with flags := { l.flags with cbpending := true } }) := by
  simp [ldlm_cli_cancel_local, hExp]

/-- C3 witness: concrete cancel of a plain remote lock yields CANCELING
with CBPENDING newly set. -/
theorem C3_cancel_local_result_witness :
    ldlm_cli_cancel_local
      { conn_export := true, req_mode := 1, granted_mode := 1,
        flags := {} } =
      some
        (if ({} : LockFlags).local_only || ({} : LockFlags).cancel_on_block then
           CancelLocalRes.localOnly
         else if ({} : LockFlags).bl_ast then CancelLocalRes.blAst
         else CancelLocalRes.canceling,
         { conn_export := true, req_mode := 1, granted_mode := 1,
           flags := { cbpending := true } }) :=
  C3_cancel_local_result _ rfl

/-- C4: on a cancel-set-capable connection, ldlm_prep_elc_req sizes the
descriptor buffer for exactly P = min(A, C) handles, packs those P handles
into the enqueue request, sends the remaining C - P as a separate cancel
batch, where C (given plus greedily harvested cancels) never exceeds
max(A, given); and the capsule estimate subtracts canceloff from the
off-free handle count. -/
theorem C4_prep_elc_req (avail count0 : Int) (lruTake : Int → Int)
    (hc : 0 ≤ count0)
    (hTake : ∀ m, 0 < m → 0 ≤ lruTake m ∧ lruTake m ≤ m) :
    (ldlm_prep_elc_req true false avail count0 lruTake).bufSizedFor =
      some (min avail (elcCandidates avail count0 lruTake)) ∧
    (ldlm_prep_elc_req true false avail count0 lruTake).packedInReq =
      min avail (elcCandidates avail count0 lruTake) ∧
    (ldlm_prep_elc_req true false avail count0 lruTake).sentSeparately =
      elcCandidates avail count0 lruTake -
        min avail (elcCandidates avail count0 lruTake) ∧
    elcCandidates avail count0 lruTake ≤ max avail count0 ∧
    (∀ mr pg hs lh rs off : Int,
      ldlm_req_handles_avail mr pg hs lh rs off =
        ldlm_req_handles_avail mr pg hs lh rs 0 - off) := by
  have hC : elcCandidates avail count0 lruTake ≤ max avail count0 := by
    unfold elcCandidates
    by_cases h : count0 < avail
    · rw [if_pos h]
      have ht := hTake (avail - count0) (by omega)
      have hle : count0 + lruTake (avail - count0) ≤ avail := by omega
      exact le_trans hle (le_max_left _ _)
    · rw [if_neg h]
      exact le_max_right _ _
  have hmin : (if elcCandidates avail count0 lruTake < avail then
        elcCandidates avail count0 lruTake else avail) =
      min avail (elcCandidates avail count0 lruTake) := by
    by_cases h : elcCandidates avail count0 lruTake < avail
    · rw [if_pos h, min_eq_right (le_of_lt h)]
    · rw [if_neg h, min_eq_left (by omega)]
  refine ⟨?_, ?_, ?_, hC, ?_⟩
  · simp only [ldlm_prep_elc_req]
    rw [hmin]
    simp
  · simp only [ldlm_prep_elc_req]
    rw [hmin]
    simp
  · simp only [ldlm_prep_elc_req]
    rw [hmin]
    simp
  · intro mr pg hs lh rs off
    simp only [ldlm_req_handles_avail]
    by_cases h : 0 ≤ min mr (pg - 512) - rs <;> simp [h] <;> ring

/-- C4 witness: nine given cancel handles against seven available slots
pack seven and send two separately. -/
theorem C4_prep_elc_req_witness :
    (ldlm_prep_elc_req true false 7 9 (fun m => m)).bufSizedFor =
      some (min 7 (elcCandidates 7 9 (fun m => m))) ∧
    (ldlm_prep_elc_req true false 7 9 (fun m => m)).packedInReq =
      min 7 (elcCandidates 7 9 (fun m => m)) ∧
    (ldlm_prep_elc_req true false 7 9 (fun m => m)).sentSeparately =
      elcCandidates 7 9 (fun m => m) -
        min 7 (elcCandidates 7 9 (fun m => m)) ∧
    elcCandidates 7 9 (fun m => m) ≤ max 7 9 ∧
    (∀ mr pg hs lh rs off : Int,
      ldlm_req_handles_avail mr pg hs lh rs off =
        ldlm_req_handles_avail mr pg hs lh rs 0 - off) :=
  C4_prep_elc_req 7 9 (fun m => m) (by decide)
    (fun m hm => ⟨le_of_lt hm, le_refl m⟩)

/-- C6: replay_one_lock skips a BL_DONE lock with no RPC; every replay
enqueue it actually sends carries exactly the flags of the specification
table (REPLAY+BLOCK_GRANTED when granted = requested, REPLAY+BLOCK_CONV
when granted nonzero but different, REPLAY+BLOCK_WAIT when on a resource
list ungranted, bare REPLAY otherwise), and a lock that is neither BL_DONE
nor CANCEL_ON_BLOCK is sent with those flags. -/
theorem C6_replay_flags (allocOk : Bool) (l : ReplayLockView) :
    (l.bl_done = true → replay_one_lock allocOk l = ReplayAction.skipped) ∧
    (∀ f, replay_one_lock allocOk l = ReplayAction.sent f →
      f = replayFlagsSpec l) ∧
    (l.bl_done = false → l.cancel_on_block = false → allocOk = true →
      replay_one_lock allocOk l = ReplayAction.sent (replayFlagsSpec l)) := by
  refine ⟨fun h => by simp [replay_one_lock, h], ?_, fun h1 h2 h3 => by
    simp [replay_one_lock, replayFlagsSpec, h1, h2, h3]⟩
  intro f hf
  by_cases hb : l.bl_done
  · simp [replay_one_lock, hb] at hf
  · by_cases hcob : l.cancel_on_block
    · simp [replay_one_lock, hb, hcob] at hf
    · by_cases ha : allocOk
      · simp [replay_one_lock, hb, hcob, ha] at hf
        rw [← hf]
        simp [replayFlagsSpec]
      · simp [replay_one_lock, hb, hcob, ha] at hf

/-- C6 witness: a BL_DONE lock is skipped with no RPC. -/
theorem C6_replay_flags_witness :
    replay_one_lock true
      { bl_done := true, cancel_on_block := false, granted_mode := 0,
        req_mode := 1, onResList := false } = ReplayAction.skipped :=
  (C6_replay_flags true
    { bl_done := true, cancel_on_block := false, granted_mode := 0,
      req_mode := 1, onResList := false }).1 rfl

/-- C7: ldlm_cli_update_pool leaves the pool untouched when the reply
carries a zero SLV or a zero limit, and when both are non-zero it stamps
exactly those two fields, leaving the rest of the pool state unchanged. -/
theorem C7_update_pool_frame (importOk lruResize : Bool)
    (msgSlv msgLimit : Nat) (st : PoolView) :
    ((msgSlv = 0 ∨ msgLimit = 0) →
      ldlm_cli_update_pool importOk lruResize msgSlv msgLimit st = st) ∧
    (importOk = true → lruResize = true → msgSlv ≠ 0 → msgLimit ≠ 0 →
      ldlm_cli_update_pool importOk lruResize msgSlv msgLimit st =
        { slv := msgSlv, limit := msgLimit, rest := st.rest }) := by
  constructor
  · intro h
    by_cases h0 : importOk = false ∨ lruResize = false <;>
      simp [ldlm_cli_update_pool, h0, h]
  · intro h1 h2 h3 h4
    simp [ldlm_cli_update_pool, h1, h2, h3, h4]

/-- C7 witness: a zero-SLV reply is ignored and a fully populated reply
stamps exactly the two pool fields. -/
theorem C7_update_pool_frame_witness :
    ldlm_cli_update_pool true true 0 5 { slv := 7, limit := 9, rest := 3 } =
      { slv := 7, limit := 9, rest := 3 } ∧
    ldlm_cli_update_pool true true 11 5 { slv := 7, limit := 9, rest := 3 } =
      { slv := 11, limit := 5, rest := 3 } :=
  ⟨(C7_update_pool_frame true true 0 5 _).1 (Or.inl rfl),
   (C7_update_pool_frame true true 11 5 _).2 rfl rfl (by decide) (by decide)⟩

/-- Helper: the scan loop of ldlm_prepare_lru_list never grows added past
maxL once maxL is positive, because the max bound is checked before every
single lock is moved to the batch. -/
theorem prepLoop_added_le (now : Nat) (noWait : Bool)
    (pf : LruLock → Nat → Nat → Int → PolicyRes) (count maxL : Int)
    (hM : 0 < maxL) :
    ∀ (fuel : Nat) (lru : List LruLock) (added unused : Nat),
      (added : Int) ≤ maxL →
      ((prepLoop now noWait pf count maxL fuel lru added unused : Nat) : Int) ≤
        maxL := by
  intro fuel
  induction fuel with
  | zero =>
    intro lru added unused h
    simpa [prepLoop] using h
  | succ f ih =>
    intro lru added unused h
    rw [prepLoop]
    by_cases hstop : 0 < maxL ∧ maxL ≤ (added : Int)
    · rw [if_pos hstop]; exact h
    · rw [if_neg hstop]
      cases hscan : lruScan now noWait lru with
      | none => simpa using h
      | some t =>
        obtain ⟨pre, l, post⟩ := t
        cases hpf : pf l unused added count with
        | keep => simpa [hpf] using h
        | skip =>
          simp only [hpf]
          exact ih _ _ _ h
        | cancel =>
          simp only [hpf]
          by_cases h1 : l.cancelingAtRecheck
          · rw [if_pos h1]
            exact ih _ _ _ h
          · rw [if_neg h1]
            by_cases h2 : l.removeCheckOk = false
            · rw [if_pos h2]
              exact ih _ _ _ h
            · rw [if_neg h2]
              apply ih
              have hlt : ¬ maxL ≤ (added : Int) := fun hc => hstop ⟨hM, hc⟩
              push_cast
              omega

/-- C5: for positive target T and positive max M, ldlm_prepare_lru_list
moves at most max(T, M) locks onto the batch (in fact at most M, because
the max bound is rechecked before each lock is added). -/
theorem C5_prepare_lru_bound (now : Nat) (noWait lruResize : Bool)
    (pf : LruLock → Nat → Nat → Int → PolicyRes) (lru : List LruLock)
    (count0 maxL maxUnused : Int)
    (hT : 0 < count0) (hM : 0 < maxL) :
    ((ldlm_prepare_lru_list now noWait lruResize pf lru count0 maxL maxUnused :
        Nat) : Int) ≤ max count0 maxL := by
  unfold ldlm_prepare_lru_list
  exact le_trans
    (prepLoop_added_le now noWait pf _ maxL hM lru.length lru 0 lru.length
      (by simp [hM.le]))
    (le_max_right _ _)

/-- C5 witness: three cancellable LRU locks against target 1 and max 2 obey
the max(T, M) bound. -/
theorem C5_prepare_lru_bound_witness :
    0 < (1 : Int) ∧ 0 < (2 : Int) ∧
    ((ldlm_prepare_lru_list 1 false true (fun _ _ _ _ => PolicyRes.cancel)
        [{ skipped := false, canceling := false, last_used := 0,
           cancelingAtRecheck := false, removeCheckOk := true },
         { skipped := false, canceling := false, last_used := 0,
           cancelingAtRecheck := false, removeCheckOk := true },
         { skipped := false, canceling := false, last_used := 0,
           cancelingAtRecheck := false, removeCheckOk := true }]
        1 2 0 : Nat) : Int) ≤ max 1 2 :=
  ⟨by decide, by decide,
   C5_prepare_lru_bound 1 false true (fun _ _ _ _ => PolicyRes.cancel) _ 1 2 0
     (by decide) (by decide)⟩

/-- C8: in the ldlm_cli_cancel_req send loop an ESTALE reply counts the
whole batch as cancelled, a TIMEOUT reply with the connection generation
unchanged retries the same batch, and any other error stops the loop with
that status, which ldlm_cli_cancel_list then replaces by the batch size so
the locks are still dropped as cancelled on the client. -/
theorem C8_cancel_req_errors (count : Int) :
    (∀ (gen : Bool) (rest : List CancelAttempt),
      cancelReqLoop count false
          (CancelAttempt.sendOk LUSTRE_ESTALE gen :: rest) = some count) ∧
    (∀ rest : List CancelAttempt,
      cancelReqLoop count false
          (CancelAttempt.sendOk (-ETIMEDOUT) true :: rest) =
        cancelReqLoop count false rest) ∧
    (∀ (e : Int) (gen : Bool) (rest : List CancelAttempt), e < 0 →
      (e = -ETIMEDOUT → gen = false) →
      cancelReqLoop count false (CancelAttempt.sendOk e gen :: rest) =
          some e ∧
      effectiveCancelled e count = count) := by
  refine ⟨?_, ?_, ?_⟩
  · intro gen rest
    simp [cancelReqLoop]
  · intro rest
    rw [cancelReqLoop]
    norm_num [LUSTRE_ESTALE, ETIMEDOUT]
  · intro e gen rest he hgen
    have h1 : e ≠ LUSTRE_ESTALE := by
      simp only [LUSTRE_ESTALE]; omega
    have h3 : e ≠ ELDLM_OK := by
      simp only [ELDLM_OK]; omega
    refine ⟨?_, by simp [effectiveCancelled, he]⟩
    rw [cancelReqLoop]
    by_cases h2 : e = -ETIMEDOUT
    · simp [h1, h2, h3, hgen h2]
      norm_num [LUSTRE_ESTALE, ELDLM_OK, ETIMEDOUT]
    · simp [h1, h2, h3]

/-- C8 witness: a concrete batch of three handles whose send gets an
-ESHUTDOWN style error stops at that status, and the caller still counts
all three as cancelled. -/
theorem C8_cancel_req_errors_witness :
    cancelReqLoop 3 false [CancelAttempt.sendOk (-108) true] = some (-108) ∧
    effectiveCancelled (-108) 3 = 3 :=
  (C8_cancel_req_errors 3).2.2 (-108) true [] (by decide) (by decide)

/-- C9 counterexample: a second cancel of an already-canceling lock without
LCF_ASYNC is not a no-op: it proceeds through ldlm_cli_cancel_local, sets
CBPENDING, and enlists the lock on a batched cancel RPC. -/
theorem C9_second_cancel_counterexample :
    ldlm_cli_cancel true
      { conn_export := true, req_mode := 1, granted_mode := 1,
        flags := { canceling := true } } false false =
      some (0, CliCancelOutcome.batched,
        { conn_export := true, req_mode := 1, granted_mode := 1,
          flags := { cbpending := true, canceling := true } }) ∧
    ({ conn_export := true, req_mode := 1, granted_mode := 1,
       flags := { cbpending := true, canceling := true } } : CliLock) ≠
      { conn_export := true, req_mode := 1, granted_mode := 1,
        flags := { canceling := true } } := by
  constructor <;> decide

/-- C9 (amended): a second public cancel of an already-canceling lock is a
no-op returning OK only when the LCF_ASYNC flag is passed; in that case it
changes no lock state and sends no RPC. -/
theorem C9_async_second_cancel_noop (l : CliLock) (localFlag : Bool)
    (hCan : l.flags.canceling = true) :
    ldlm_cli_cancel true l true localFlag =
      some (0, CliCancelOutcome.asyncSkip, l) := by
  simp [ldlm_cli_cancel, hCan]

/-- C9 witness: concrete async second cancel of a canceling lock. -/
theorem C9_async_second_cancel_noop_witness :
    ldlm_cli_cancel true
      { conn_export := true, req_mode := 1, granted_mode := 1,
        flags := { canceling := true } } true false =
      some (0, CliCancelOutcome.asyncSkip,
        { conn_export := true, req_mode := 1, granted_mode := 1,
          flags := { canceling := true } }) :=
  C9_async_second_cancel_noop _ false rfl

/-- C10: when the handle no longer resolves to a live lock, the public
ldlm_cli_cancel returns 0 (OK), performs no cancellation work and leaves
the lock state unchanged. -/
theorem C10_dead_handle_ok (l : CliLock) (async localFlag : Bool) :
    ldlm_cli_cancel false l async localFlag =
      some (0, CliCancelOutcome.noLock, l) := by
  simp [ldlm_cli_cancel]

end LdlmRequest
